import Mathlib

/-!
Formal model of the MusicAgent backend: the Spotify token lifecycle, the
ingestion pipeline (`app/api/routes/spotify.py`) and the user and snapshot
repositories (`app/repositories/user_repository.py`,
`app/repositories/spotify_repository.py`), embedded shallowly in Lean.

Modelling conventions:
- Python `None` / absent dict keys become `Option`.
- MongoDB documents become association lists of string keys (`BDoc`), in
  insertion order, with a flat value type `BVal`; the only nested document
  this application ever stores under a user is the `spotify` auth
  sub-record, which is modelled as a dedicated structure held in a `BVal`
  constructor.
- `datetime` values become an integer wall-clock instant (seconds) plus an
  optional fixed timezone offset (`none` models a naive datetime).
- The upstream Spotify HTTP API and the ObjectId generator become oracle
  functions passed as parameters; an upstream call that raises
  `HTTPException` is an `Except.error` carrying the upstream status.
-/

namespace MusicAgent

/-- Python `datetime`: a wall-clock instant in seconds together with an
optional fixed timezone offset in seconds (`none` models a naive,
timezone-less datetime). -/
structure PyDatetime where
  wall : Int
  tzOffset : Option Int
deriving DecidableEq

/-- Position of a datetime on the UTC timeline: `wall - offset`, a naive
datetime being read with offset `0`, exactly what
`replace(tzinfo=timezone.utc)` followed by an aware comparison computes. -/
def PyDatetime.instant (d : PyDatetime) : Int :=
  d.wall - d.tzOffset.getD 0

/-- Possible shapes of the stored `expires_at` value as seen by
`_is_expired` (spotify.py lines 73-90): Python `None`; another falsy value
(the empty string, `0`, ...); a non-empty string together with the result
of `datetime.fromisoformat` after the `Z -> +00:00` replacement (`none`
when parsing raises `ValueError`); a `datetime` object (always truthy); or
any other truthy non-string non-datetime value. -/
inductive ExpiryValue where
  | vNone
  | vFalsy
  | vStr (parsed : Option PyDatetime)
  | vDt (d : PyDatetime)
  | vOtherTruthy
deriving DecidableEq

/-- Shallow embedding of `_is_expired` (spotify.py lines 73-90): falsy
values, unparseable strings and non-datetime values are expired; a parsed
or direct datetime is expired when it is not strictly after `now` on the
UTC timeline, naive datetimes being interpreted as UTC first. -/
def is_expired (v : ExpiryValue) (now : Int) : Bool :=
  match v with
  | .vNone => true
  | .vFalsy => true
  | .vStr none => true
  | .vStr (some d) => decide (d.instant ≤ now)
  | .vDt d => decide (d.instant ≤ now)
  | .vOtherTruthy => true

/-- The timestamp the expiry value successfully parses to, when there is
one: the parse result of a string value, or a datetime value itself. -/
def parsedExpiry : ExpiryValue → Option PyDatetime
  | .vStr (some d) => some d
  | .vDt d => some d
  | _ => none

/-- Token endpoint response payload (`token_payload` dicts): the fields the
repository reads via `.get`, each `none` when absent or JSON `null`. -/
structure TokenPayload where
  access_token : Option String := none
  refresh_token : Option String := none
  token_type : Option String := none
  scope : Option String := none
  expires_in : Option Int := none
deriving DecidableEq

/-- One outgoing call made by the ingestion route, in program order:
the token refresh, the persistence of a token payload onto the user
record, the three top-level data fetches, the audio-features batch calls
(each recording the access token it sends), and the snapshot insert. -/
inductive SpotifyCall where
  | refreshToken (rt : String)
  | persistTokens (p : TokenPayload)
  | getTopTracks (tok : String)
  | getTopArtists (tok : String)
  | getRecentlyPlayed (tok : String)
  | getAudioFeatures (tok : String) (ids : List String)
  | createSnapshot
deriving DecidableEq

/-- Access token carried by an upstream GET call, `none` for the calls
that do not send a bearer token in this model. -/
def SpotifyCall.token : SpotifyCall → Option String
  | .getTopTracks t => some t
  | .getTopArtists t => some t
  | .getRecentlyPlayed t => some t
  | .getAudioFeatures t _ => some t
  | _ => none

/-- Predicate for the refresh call. -/
def SpotifyCall.isRefresh : SpotifyCall → Bool
  | .refreshToken _ => true
  | _ => false

/-- Predicate for the token-persist call. -/
def SpotifyCall.isPersist : SpotifyCall → Bool
  | .persistTokens _ => true
  | _ => false

/-- Fuel-indexed slicing of a list into consecutive pieces of at most 100
elements, mirroring `for i in range(0, len(track_ids), 100)` with slices
`track_ids[i : i + 100]` (spotify.py lines 227-228). The fuel (an upper
bound on the length) makes the recursion structural, so concrete runs
reduce inside the kernel. -/
def chunkAux : Nat → List String → List (List String)
  | 0, _ => []
  | _, [] => []
  | fuel + 1, x :: xs => (x :: xs).take 100 :: chunkAux fuel ((x :: xs).drop 100)

/-- Consecutive slices of at most 100 ids, as traversed by the
audio-features loop. -/
def chunk100 (l : List String) : List (List String) :=
  chunkAux l.length l

/-- Audio-features batch loop (spotify.py lines 226-237) over an already
chunked id list: an empty chunk is skipped without a call (`if not
chunk_ids: continue`); otherwise one upstream call is made, and on success
the falsy (null) entries of the response are dropped and the rest appended
in order; an upstream failure raises, aborting the loop after the calls
made so far. -/
def audioFeaturesFetch {F : Type}
    (getAF : List String → Except Int (List (Option F))) (access : String) :
    List (List String) → List SpotifyCall × Except Int (List F)
  | [] => ([], Except.ok [])
  | c :: rest =>
    if c.isEmpty then audioFeaturesFetch getAF access rest
    else
      match getAF c with
      | .error st => ([SpotifyCall.getAudioFeatures access c], .error st)
      | .ok feats =>
        let r := audioFeaturesFetch getAF access rest
        (SpotifyCall.getAudioFeatures access c :: r.1,
          match r.2 with
          | .error st => .error st
          | .ok fs => .ok (feats.filterMap id ++ fs))

/-- One item of the top-tracks response: the ingestion route only ever
reads `track.get("id")`, which is `none` when the key is absent or null. -/
structure Track where
  id : Option String
deriving DecidableEq

/-- Truthiness of `track.get("id")`: present and non-empty. -/
def trackIdTruthy (t : Track) : Bool :=
  match t.id with
  | some s => decide (s ≠ "")
  | none => false

/-- Embedding of `[track.get("id") for track in top_tracks if
track.get("id")]` (spotify.py line 224): the ids of the tracks whose id is
present and non-empty, in order. -/
def extractTrackIds : List Track → List String
  | [] => []
  | t :: rest =>
    match t.id with
    | some s => if s = "" then extractTrackIds rest else s :: extractTrackIds rest
    | none => extractTrackIds rest

/-- Stored Spotify auth sub-record embedded in a user document: the fields
written by `save_user_spotify_tokens`, each optional since a stored
sub-record may hold any subset of them. -/
structure SpotifyAuth where
  access_token : Option String := none
  refresh_token : Option String := none
  token_type : Option String := none
  scope : Option String := none
  expires_in : Option Int := none
  expires_at : Option PyDatetime := none
  updated_at : Option PyDatetime := none
deriving DecidableEq

/-- BSON-ish values stored in user and snapshot documents. The only
nested document the application stores under a user is the `spotify` auth
sub-record, carried by its own constructor. -/
inductive BVal where
  | str (s : String)
  | intv (n : Int)
  | dt (d : PyDatetime)
  | oid (s : String)
  | auth (a : SpotifyAuth)
deriving DecidableEq

/-- A document: association list of fields in insertion order, first
occurrence of a key being the authoritative one (keys are unique in any
document MongoDB or Python builds). -/
abbrev BDoc := List (String × BVal)

/-- First value stored under a key, if any. -/
def lookupField : BDoc → String → Option BVal
  | [], _ => none
  | (k, v) :: rest, key => if k = key then some v else lookupField rest key

/-- Set a field, replacing the first occurrence in place (as both Python
dicts and MongoDB `$set` do) or appending it when absent. -/
def setField : BDoc → String → BVal → BDoc
  | [], key, v => [(key, v)]
  | (k, w) :: rest, key, v =>
    if k = key then (key, v) :: rest else (k, w) :: setField rest key v

/-- Apply a `$set` update map field by field, in order. -/
def applySet (updates : List (String × BVal)) (doc : BDoc) : BDoc :=
  updates.foldl (fun d kv => setField d kv.1 kv.2) doc

/-- `PUBLIC_USER_PROJECTION = {"hashed_password": 0, "spotify": 0}`
applied to a found document: both keys are excluded. -/
def applyPublicProjection (doc : BDoc) : BDoc :=
  doc.filter (fun kv => !(kv.1 == "hashed_password") && !(kv.1 == "spotify"))

/-- Core of `_serialize_user`: `document["_id"] = str(document["_id"])`,
the stored ObjectId becoming its hex string. -/
def serializeUserDoc (doc : BDoc) : BDoc :=
  match lookupField doc "_id" with
  | some (BVal.oid s) => setField doc "_id" (BVal.str s)
  | _ => doc

/-- `_serialize_user` (user_repository.py lines 25-30): `None` and the
falsy empty document map to `None`, any other document has its `_id`
stringified. -/
def serializeUser : Option BDoc → Option BDoc
  | none => none
  | some [] => none
  | some doc => some (serializeUserDoc doc)

/-- Hex digit as accepted by `bson.ObjectId`. -/
def isHexChar (c : Char) : Bool :=
  c.isDigit || ('a' ≤ c && c ≤ 'f') || ('A' ≤ c && c ≤ 'F')

/-- Validity of an ObjectId string: exactly 24 hexadecimal characters,
which is what `bson.ObjectId(user_id)` accepts from a `str`. -/
def isValidObjectId (s : String) : Bool :=
  s.length == 24 && s.toList.all isHexChar

/-- Embedding of `_to_object_id` (user_repository.py lines 18-22 and
spotify_repository.py lines 17-21): a malformed id raises `InvalidId`,
caught and turned into `None`; a valid 24-hex string becomes the ObjectId
it denotes (identified here with the string itself; all concrete ids used
below are already in the canonical lowercase form `ObjectId` prints). -/
def toObjectId (user_id : String) : Option String :=
  if isValidObjectId user_id then some user_id else none

/-- The users collection, in insertion order. -/
abbrev UsersDb := List BDoc

/-- Filter `{"_id": object_id}` on one document. -/
def idMatches (doc : BDoc) (oidStr : String) : Bool :=
  decide (lookupField doc "_id" = some (BVal.oid oidStr))

/-- `find_one({"_id": object_id})`: the first matching document. -/
def findOneById : UsersDb → String → Option BDoc
  | [], _ => none
  | d :: rest, oidStr =>
    if idMatches d oidStr then some d else findOneById rest oidStr

/-- `find_one({key: value})`: first document with the given field value. -/
def findOneByField : UsersDb → String → BVal → Option BDoc
  | [], _, _ => none
  | d :: rest, key, v =>
    if lookupField d key = some v then some d else findOneByField rest key v

/-- `update_one({"_id": object_id}, ...)`: transform the first matching
document, also returning `matched_count`. -/
def updateOneWith : UsersDb → String → (BDoc → BDoc) → UsersDb × Nat
  | [], _, _ => ([], 0)
  | d :: rest, oidStr, f =>
    if idMatches d oidStr then (f d :: rest, 1)
    else
      let r := updateOneWith rest oidStr f
      (d :: r.1, r.2)

/-- `delete_one({"_id": object_id})`: remove the first matching document,
returning `deleted_count`. -/
def deleteOneById : UsersDb → String → UsersDb × Nat
  | [], _ => ([], 0)
  | d :: rest, oidStr =>
    if idMatches d oidStr then (rest, 1)
    else
      let r := deleteOneById rest oidStr
      (d :: r.1, r.2)

/-- `get_user_by_id` (user_repository.py lines 73-83). -/
def get_user_by_id (db : UsersDb) (user_id : String) : Option BDoc :=
  match toObjectId user_id with
  | none => none
  | some oidStr => serializeUser ((findOneById db oidStr).map applyPublicProjection)

/-- `get_user_by_username` (user_repository.py lines 86-94): the public
projection is applied unless the caller passes
`include_password_hash=True`. -/
def get_user_by_username (db : UsersDb) (username : String)
    (include_password_hash : Bool) : Option BDoc :=
  serializeUser ((findOneByField db "username" (BVal.str username)).map
    (fun d => if include_password_hash then d else applyPublicProjection d))

/-- `get_user_by_email` (user_repository.py lines 97-105). -/
def get_user_by_email (db : UsersDb) (email : String)
    (include_password_hash : Bool) : Option BDoc :=
  serializeUser ((findOneByField db "email" (BVal.str email)).map
    (fun d => if include_password_hash then d else applyPublicProjection d))

/-- `create_user` (user_repository.py lines 43-61): stamp missing
creation/update timestamps, insert (the driver adding a fresh `_id` when
the document has none), then read the inserted document back under the
public projection. `newId` stands for the ObjectId the driver generates. -/
def create_user (db : UsersDb) (user_doc : BDoc) (now : Int) (newId : String) :
    UsersDb × Option BDoc :=
  let nowDt := BVal.dt ⟨now, some 0⟩
  let toInsert :=
    setField (setField user_doc "created_at"
        ((lookupField user_doc "created_at").getD nowDt))
      "updated_at" ((lookupField user_doc "updated_at").getD nowDt)
  let withId :=
    if (lookupField toInsert "_id").isNone then ("_id", BVal.oid newId) :: toInsert
    else toInsert
  let insertedId :=
    match lookupField withId "_id" with
    | some (BVal.oid s) => s
    | _ => newId
  let db2 := db ++ [withId]
  (db2, serializeUser ((findOneById db2 insertedId).map applyPublicProjection))

/-- `list_users` (user_repository.py lines 64-70): first `limit` documents
under the public projection, serialized, falsy (empty) ones skipped. -/
def list_users (db : UsersDb) (limit : Nat) : List BDoc :=
  (db.take limit).filterMap (fun d => serializeUser (some (applyPublicProjection d)))

/-- Update map surviving the filtering of `update_user` (lines 117-119):
null-valued fields dropped, then the `_id` and `created_at` keys popped. -/
def survivingUpdates (update_data : List (String × Option BVal)) :
    List (String × BVal) :=
  (update_data.filterMap (fun kv => kv.2.map (fun v => (kv.1, v)))).filter
    (fun kv => !(kv.1 == "_id") && !(kv.1 == "created_at"))

/-- `update_user` (user_repository.py lines 108-129): malformed id is "not
found"; an update map with nothing surviving returns the current record
without touching the store; otherwise `updated_at` is stamped, the first
matching document is `$set`, and the result is read back under the public
projection. Returns the new collection state and the route-visible
result. -/
def update_user (db : UsersDb) (user_id : String)
    (update_data : List (String × Option BVal)) (now : Int) :
    UsersDb × Option BDoc :=
  match toObjectId user_id with
  | none => (db, none)
  | some oidStr =>
    let updates := survivingUpdates update_data
    if updates.isEmpty then
      (db, get_user_by_id db user_id)
    else
      let updates2 := updates ++ [("updated_at", BVal.dt ⟨now, some 0⟩)]
      let db2 := (updateOneWith db oidStr (applySet updates2)).1
      (db2, serializeUser ((findOneById db2 oidStr).map applyPublicProjection))

/-- `delete_user` (user_repository.py lines 132-142). -/
def delete_user (db : UsersDb) (user_id : String) : UsersDb × Bool :=
  match toObjectId user_id with
  | none => (db, false)
  | some oidStr =>
    let r := deleteOneById db oidStr
    (r.1, r.2 == 1)

/-- Merge of one `$set` entry after null filtering: a `None` value was
dropped from the update map, so the stored value survives; a present
value overwrites. -/
def optSet {α : Type} (new old : Option α) : Option α :=
  match new with
  | none => old
  | some v => some v

/-- Python truthiness of an optional string: present and non-empty. -/
def truthyStr : Option String → Bool
  | none => false
  | some s => decide (s ≠ "")

/-- Stored auth sub-record read by `save_user_spotify_tokens` from the
user document; dotted-path `$set` creates the sub-document when the field
is absent, which behaves like starting from the all-empty record. -/
def getStoredAuth (doc : BDoc) : SpotifyAuth :=
  match lookupField doc "spotify" with
  | some (BVal.auth a) => a
  | _ => {}

/-- Effect of `save_user_spotify_tokens` (user_repository.py lines
157-174) on the auth sub-record: `expires_in` defaults to 0 (`get(...,0)
or 0`), `expires_at` is `now + expires_in` only when positive, the
`refresh_token` entry exists only when the payload carries a truthy one,
and every `None`-valued entry of the update map is dropped before `$set`,
the stored field then surviving. -/
def spotifyAuthAfterSave (a : SpotifyAuth) (p : TokenPayload) (now : Int) :
    SpotifyAuth :=
  let e := p.expires_in.getD 0
  { access_token := optSet p.access_token a.access_token
    token_type := optSet p.token_type a.token_type
    scope := optSet p.scope a.scope
    expires_in := some e
    expires_at := optSet (if 0 < e then some ⟨now + e, some 0⟩ else none) a.expires_at
    updated_at := some ⟨now, some 0⟩
    refresh_token :=
      optSet (if truthyStr p.refresh_token then p.refresh_token else none)
        a.refresh_token }

/-- Whole-document effect of the `$set` of `save_user_spotify_tokens`:
the dotted `spotify.*` paths rewrite the auth sub-record and the top-level
`updated_at` is always stamped (it is never `None`). -/
def applySpotifySave (p : TokenPayload) (now : Int) (doc : BDoc) : BDoc :=
  setField (setField doc "spotify"
      (BVal.auth (spotifyAuthAfterSave (getStoredAuth doc) p now)))
    "updated_at" (BVal.dt ⟨now, some 0⟩)

/-- `save_user_spotify_tokens` (user_repository.py lines 145-181). -/
def save_user_spotify_tokens (db : UsersDb) (user_id : String)
    (p : TokenPayload) (now : Int) : UsersDb × Option BDoc :=
  match toObjectId user_id with
  | none => (db, none)
  | some oidStr =>
    let r := updateOneWith db oidStr (applySpotifySave p now)
    if r.2 == 0 then (r.1, none)
    else (r.1, serializeUser ((findOneById r.1 oidStr).map applyPublicProjection))

/-- `get_user_spotify_auth` (user_repository.py lines 184-201): `None` for
a malformed id, a missing user, or a `spotify` field that is not a
sub-document. -/
def get_user_spotify_auth (db : UsersDb) (user_id : String) :
    Option SpotifyAuth :=
  match toObjectId user_id with
  | none => none
  | some oidStr =>
    match findOneById db oidStr with
    | none => none
    | some doc =>
      match lookupField doc "spotify" with
      | some (BVal.auth a) => some a
      | _ => none

/-- `create_spotify_ingestion_snapshot` (spotify_repository.py lines
33-49): a malformed user id is "not found"; otherwise the snapshot
document (owner reference and fetch instant, overridden by any payload
keys, plus the driver-generated `_id`) is appended and its id returned. -/
def create_spotify_ingestion_snapshot (snapdb : List BDoc) (user_id : String)
    (payload : BDoc) (now : Int) (newId : String) : List BDoc × Option String :=
  match toObjectId user_id with
  | none => (snapdb, none)
  | some oidStr =>
    let doc := applySet payload
      [("user_id", BVal.oid oidStr), ("fetched_at", BVal.dt ⟨now, some 0⟩)]
    (snapdb ++ [("_id", BVal.oid newId) :: doc], some newId)

/-- Error taxonomy of the ingestion route (`HTTPException` raise sites in
spotify_ingest, lines 174-252): 404 not linked, 400 both tokens missing,
401 expired without refresh token, an upstream failure forwarding the
provider status, 401 no usable access token, 404 snapshot insert on an
unresolvable user id. -/
inductive IngestErr where
  | notLinked
  | missingTokens
  | noRefreshToken
  | noAccessToken
  | upstream (status : Int)
  | userNotFound
deriving DecidableEq

/-- Success payload of `spotify_ingest` (lines 254-264): the stored flag
is implicit, counts plus snapshot id. -/
structure IngestSummary where
  user_id : String
  snapshot_id : String
  top_tracks : Nat
  top_artists : Nat
  recently_played : Nat
  audio_features : Nat
deriving DecidableEq

/-- Oracle for the upstream Spotify API, each endpoint keyed by the access
(or refresh) token the route sends; `Except.error` carries the upstream
HTTP status of a failed call. Top-artists and recently-played items are
opaque to the route except for their count, so the oracle returns counts;
audio-features entries may be null (`none`). -/
structure IngestEnv (F : Type) where
  refresh : String → Except Int TokenPayload
  topTracks : String → Except Int (List Track)
  topArtists : String → Except Int Nat
  recentlyPlayed : String → Except Int Nat
  audioFeatures : String → List String → Except Int (List (Option F))

/-- Result of one ingestion run: the upstream/persist calls in issue
order, the resulting users and snapshots collections, and the
route-visible outcome. -/
structure IngestOutcome where
  calls : List SpotifyCall
  users : UsersDb
  snapshots : List BDoc
  result : Except IngestErr IngestSummary

/-- Stored `expires_at` as `_is_expired` sees it when `spotify_ingest`
reads it back from the auth sub-record: absent is `None`, present is the
stored datetime. -/
def expiryValueOf : Option PyDatetime → ExpiryValue
  | none => .vNone
  | some d => .vDt d

/-- Snapshot payload assembled at spotify.py lines 242-248; the item
lists themselves are opaque to every claim, so they are recorded here by
their counts together with the provenance tag. -/
def snapshotPayload (nTracks nArtists nRecent nFeats : Nat) : BDoc :=
  [("top_tracks", BVal.intv nTracks), ("top_artists", BVal.intv nArtists),
    ("recently_played", BVal.intv nRecent),
    ("audio_features", BVal.intv nFeats),
    ("source", BVal.str "spotify_api_v1")]

/-- Second half of `spotify_ingest` (lines 207-264), entered with a usable
access token: the three top-level fetches in program order, each aborting
with the upstream status on failure; track-id extraction; the chunked
audio-features loop; and the snapshot insert. -/
def ingestAfterToken {F : Type} (env : IngestEnv F) (snapdb : List BDoc)
    (user_id : String) (now : Int) (newSnapId : String) (tok : String) :
    List SpotifyCall × List BDoc × Except IngestErr IngestSummary :=
  match env.topTracks tok with
  | .error st => ([.getTopTracks tok], snapdb, .error (.upstream st))
  | .ok tracks =>
    match env.topArtists tok with
    | .error st =>
      ([.getTopTracks tok, .getTopArtists tok], snapdb, .error (.upstream st))
    | .ok nArtists =>
      match env.recentlyPlayed tok with
      | .error st =>
        ([.getTopTracks tok, .getTopArtists tok, .getRecentlyPlayed tok],
          snapdb, .error (.upstream st))
      | .ok nRecent =>
        match audioFeaturesFetch (env.audioFeatures tok) tok
            (chunk100 (extractTrackIds tracks)) with
        | (afCalls, .error st) =>
          ([.getTopTracks tok, .getTopArtists tok, .getRecentlyPlayed tok]
              ++ afCalls, snapdb, .error (.upstream st))
        | (afCalls, .ok feats) =>
          match create_spotify_ingestion_snapshot snapdb user_id
              (snapshotPayload tracks.length nArtists nRecent feats.length)
              now newSnapId with
          | (snapdb2, none) =>
            ([.getTopTracks tok, .getTopArtists tok, .getRecentlyPlayed tok]
                ++ afCalls ++ [.createSnapshot], snapdb2,
              .error .userNotFound)
          | (snapdb2, some sid) =>
            ([.getTopTracks tok, .getTopArtists tok, .getRecentlyPlayed tok]
                ++ afCalls ++ [.createSnapshot], snapdb2,
              .ok { user_id := user_id, snapshot_id := sid,
                    top_tracks := tracks.length, top_artists := nArtists,
                    recently_played := nRecent,
                    audio_features := feats.length })

/-- `spotify_ingest` (spotify.py lines 169-264): load the stored auth
(404 when absent), 400 when access and refresh token are both falsy; when
the stored expiry is expired, require a truthy refresh token (else 401),
call the token refresh (forwarding upstream failure), persist the
refreshed payload, adopt its access token; 401 when no truthy access
token results; then run the fetch half. -/
def spotify_ingest {F : Type} (env : IngestEnv F) (db : UsersDb)
    (snapdb : List BDoc) (user_id : String) (now : Int) (newSnapId : String) :
    IngestOutcome :=
  match get_user_spotify_auth db user_id with
  | none => ⟨[], db, snapdb, .error .notLinked⟩
  | some auth =>
    if !truthyStr auth.access_token && !truthyStr auth.refresh_token then
      ⟨[], db, snapdb, .error .missingTokens⟩
    else if is_expired (expiryValueOf auth.expires_at) now then
      match auth.refresh_token with
      | none => ⟨[], db, snapdb, .error .noRefreshToken⟩
      | some rt =>
        if rt = "" then ⟨[], db, snapdb, .error .noRefreshToken⟩
        else
          match env.refresh rt with
          | .error st => ⟨[.refreshToken rt], db, snapdb, .error (.upstream st)⟩
          | .ok payload =>
            match payload.access_token with
            | none =>
              ⟨[.refreshToken rt, .persistTokens payload],
                (save_user_spotify_tokens db user_id payload now).1, snapdb,
                .error .noAccessToken⟩
            | some tok =>
              if tok = "" then
                ⟨[.refreshToken rt, .persistTokens payload],
                  (save_user_spotify_tokens db user_id payload now).1, snapdb,
                  .error .noAccessToken⟩
              else
                ⟨[.refreshToken rt, .persistTokens payload]
                    ++ (ingestAfterToken env snapdb user_id now newSnapId tok).1,
                  (save_user_spotify_tokens db user_id payload now).1,
                  (ingestAfterToken env snapdb user_id now newSnapId tok).2.1,
                  (ingestAfterToken env snapdb user_id now newSnapId tok).2.2⟩
    else
      match auth.access_token with
      | none => ⟨[], db, snapdb, .error .noAccessToken⟩
      | some tok =>
        if tok = "" then ⟨[], db, snapdb, .error .noAccessToken⟩
        else
          ⟨(ingestAfterToken env snapdb user_id now newSnapId tok).1, db,
            (ingestAfterToken env snapdb user_id now newSnapId tok).2.1,
            (ingestAfterToken env snapdb user_id now newSnapId tok).2.2⟩

/-- Concrete upstream oracle for exercising the ingestion pipeline: the
refresh succeeds with a fresh access token, the three fetches succeed, and
audio features return one non-null entry per requested id. -/
def c5Env : IngestEnv Nat where
  refresh := fun _ => Except.ok
    { access_token := some "newtok", refresh_token := some "rt2", expires_in := some 3600 }
  topTracks := fun _ => Except.ok [⟨some "t1"⟩]
  topArtists := fun _ => Except.ok 1
  recentlyPlayed := fun _ => Except.ok 2
  audioFeatures := fun _ ids => Except.ok (ids.map (fun _ => some 0))

/-- Concrete users collection with one linked user whose access token
expired at instant 10 and whose auth holds refresh token "rt". -/
def c5Db : UsersDb :=
  [[("_id", BVal.oid "0123456789abcdef01234567"),
    ("spotify", BVal.auth { access_token := some "oldtok", refresh_token := some "rt", expires_at := some ⟨10, some 0⟩ })]]

/-- C1: `_is_expired` returns `false` exactly when the stored value parses
to a timestamp strictly after the current UTC time (naive timestamps read
as UTC before comparison); it returns `true` for an absent value, an
unparseable string, any other non-datetime value, and any parsed timestamp
less than or equal to now — in particular a timestamp exactly equal to now
counts as expired. -/
theorem c1_is_expired_iff :
    (∀ (v : ExpiryValue) (now : Int),
      is_expired v now = false ↔ ∃ d, parsedExpiry v = some d ∧ now < d.instant)
    ∧ (∀ d : PyDatetime, is_expired (ExpiryValue.vDt d) d.instant = true) := by
  constructor
  · intro v now
    cases v with
    | vNone => simp [is_expired, parsedExpiry]
    | vFalsy => simp [is_expired, parsedExpiry]
    | vStr p =>
      cases p with
      | none => simp [is_expired, parsedExpiry]
      | some d => simp [is_expired, parsedExpiry]
    | vDt d => simp [is_expired, parsedExpiry]
    | vOtherTruthy => simp [is_expired, parsedExpiry]
  · intro d
    simp [is_expired]

theorem chunkAux_join (fuel : Nat) :
    ∀ l : List String, l.length ≤ fuel → (chunkAux fuel l).flatten = l := by
  induction fuel with
  | zero =>
    intro l hl
    match l with
    | [] => rfl
  | succ n ih =>
    intro l hl
    match l with
    | [] => rfl
    | x :: xs =>
      have hd : ((x :: xs).drop 100).length ≤ n := by
        simp only [List.length_drop, List.length_cons]
        simp only [List.length_cons] at hl
        omega
      simp only [chunkAux, List.flatten_cons, ih _ hd, List.take_append_drop]

theorem chunkAux_length (fuel : Nat) :
    ∀ l : List String, l.length ≤ fuel →
      (chunkAux fuel l).length = (l.length + 99) / 100 := by
  induction fuel with
  | zero =>
    intro l hl
    match l with
    | [] => rfl
  | succ n ih =>
    intro l hl
    match l with
    | [] => rfl
    | x :: xs =>
      have hd : ((x :: xs).drop 100).length ≤ n := by
        simp only [List.length_drop, List.length_cons]
        simp only [List.length_cons] at hl
        omega
      simp only [chunkAux, List.length_cons, ih _ hd, List.length_drop]
      omega

theorem chunkAux_mem (fuel : Nat) :
    ∀ (l c : List String), l.length ≤ fuel → c ∈ chunkAux fuel l →
      c.length ≤ 100 ∧ c ≠ [] := by
  induction fuel with
  | zero =>
    intro l c hl hc
    match l with
    | [] => simp [chunkAux] at hc
  | succ n ih =>
    intro l c hl hc
    match l with
    | [] => simp [chunkAux] at hc
    | x :: xs =>
      simp only [chunkAux, List.mem_cons] at hc
      rcases hc with hc | hc
      · subst hc
        constructor
        · simp [List.length_take_le]
        · simp
      · have hd : ((x :: xs).drop 100).length ≤ n := by
          simp only [List.length_drop, List.length_cons]
          simp only [List.length_cons] at hl
          omega
        exact ih _ _ hd hc

theorem chunk100_join (l : List String) : (chunk100 l).flatten = l :=
  chunkAux_join l.length l le_rfl

theorem chunk100_length (l : List String) :
    (chunk100 l).length = (l.length + 99) / 100 :=
  chunkAux_length l.length l le_rfl

theorem chunk100_mem (l c : List String) (hc : c ∈ chunk100 l) :
    c.length ≤ 100 ∧ c ≠ [] :=
  chunkAux_mem l.length l c le_rfl hc

theorem audioFeaturesFetch_ok {F : Type}
    (resp : List String → List (Option F)) (access : String)
    (cs : List (List String)) :
    audioFeaturesFetch (fun c => Except.ok (resp c)) access cs
      = ((cs.filter (fun c => !c.isEmpty)).map (SpotifyCall.getAudioFeatures access),
         Except.ok (((cs.filter (fun c => !c.isEmpty)).map
            (fun c => (resp c).filterMap id)).flatten)) := by
  induction cs with
  | nil => rfl
  | cons c rest ih =>
    by_cases hc : c.isEmpty
    · simp [audioFeaturesFetch, hc, ih]
    · simp [audioFeaturesFetch, hc, ih]

/-- C2: over any top-tracks id list of length n, the audio-features stage
makes exactly ceil(n/100) upstream batch calls, one per consecutive chunk
of at most 100 ids taken in list order (the chunks concatenate back to the
id list and are never empty); the resulting feature list is the
concatenation, in request order, of the batch responses with null entries
removed; and — for an arbitrary chunk list — an empty chunk never produces
a call. -/
theorem c2_audio_feature_batching {F : Type}
    (resp : List String → List (Option F)) (access : String)
    (ids : List String) :
    (audioFeaturesFetch (fun c => Except.ok (resp c)) access (chunk100 ids)).1
        = (chunk100 ids).map (SpotifyCall.getAudioFeatures access)
    ∧ (audioFeaturesFetch (fun c => Except.ok (resp c)) access (chunk100 ids)).1.length
        = (ids.length + 99) / 100
    ∧ (chunk100 ids).flatten = ids
    ∧ (∀ c ∈ chunk100 ids, c.length ≤ 100 ∧ c ≠ [])
    ∧ (audioFeaturesFetch (fun c => Except.ok (resp c)) access (chunk100 ids)).2
        = Except.ok (((chunk100 ids).map (fun c => (resp c).filterMap id)).flatten)
    ∧ (∀ cs : List (List String),
        (audioFeaturesFetch (fun c => Except.ok (resp c)) access cs).1
          = (cs.filter (fun c => !c.isEmpty)).map (SpotifyCall.getAudioFeatures access)) := by
  have hne : (chunk100 ids).filter (fun c => !c.isEmpty) = chunk100 ids := by
    rw [List.filter_eq_self]
    intro c hc
    have := (chunk100_mem ids c hc).2
    simpa [List.isEmpty_iff] using this
  have hok := audioFeaturesFetch_ok resp access (chunk100 ids)
  refine ⟨?_, ?_, chunk100_join ids, fun c hc => chunk100_mem ids c hc, ?_, ?_⟩
  · rw [hok, hne]
  · rw [hok, hne]
    simp [chunk100_length ids]
  · rw [hok, hne]
  · intro cs
    rw [audioFeaturesFetch_ok resp access cs]

set_option maxRecDepth 4000 in
/-- Witness for C2 at the spec's concrete instance: 250 track ids produce
exactly 3 batch calls with chunk sizes 100, 100, 50, and the responses
concatenate in order. -/
theorem c2_audio_feature_batching_witness :
    (audioFeaturesFetch
        (fun c => Except.ok (c.map (fun _ => (some 0 : Option Nat)))) "tok"
        (chunk100 (List.replicate 250 "t"))).1.length
      = ((List.replicate 250 "t" : List String).length + 99) / 100
    ∧ (chunk100 (List.replicate 250 "t")).map List.length = [100, 100, 50]
    ∧ ((List.replicate 250 "t" : List String).length + 99) / 100 = 3 := by
  refine ⟨?_, by decide, by decide⟩
  exact (c2_audio_feature_batching
    (fun c => c.map (fun _ => (some 0 : Option Nat))) "tok"
    (List.replicate 250 "t")).2.1

theorem extractTrackIds_eq_filter (tracks : List Track) :
    extractTrackIds tracks
      = (tracks.filter trackIdTruthy).filterMap (fun t => t.id) := by
  induction tracks with
  | nil => rfl
  | cons t rest ih =>
    match ht : t.id with
    | none => simp [extractTrackIds, List.filter_cons, trackIdTruthy, ht, ih]
    | some s =>
      by_cases hs : s = ""
      · simp [extractTrackIds, List.filter_cons, trackIdTruthy, ht, hs, ih]
      · simp [extractTrackIds, List.filter_cons, trackIdTruthy, ht, hs, ih]

theorem extractTrackIds_length (tracks : List Track) :
    (extractTrackIds tracks).length = (tracks.filter trackIdTruthy).length := by
  rw [extractTrackIds_eq_filter]
  induction tracks with
  | nil => rfl
  | cons t rest ih =>
    by_cases ht : trackIdTruthy t
    · have : ∃ s, t.id = some s := by
        match hid : t.id with
        | some s => exact ⟨s, rfl⟩
        | none => simp [trackIdTruthy, hid] at ht
      rcases this with ⟨s, hs⟩
      simp [List.filter_cons, ht, hs, ih]
    · simp [List.filter_cons, ht, ih]

theorem flatten_filterMap_length_le {F : Type}
    (resp : List String → List (Option F)) (h : ∀ c, (resp c).length ≤ c.length)
    (cs : List (List String)) :
    (((cs.filter (fun c => !c.isEmpty)).map
        (fun c => (resp c).filterMap id)).flatten).length ≤ cs.flatten.length := by
  induction cs with
  | nil => simp
  | cons c rest ih =>
    have h1 : ((resp c).filterMap id).length ≤ (resp c).length :=
      List.length_filterMap_le _ _
    have h2 := h c
    by_cases hc : c.isEmpty
    · simp [List.filter_cons, hc] at ih ⊢
      omega
    · simp [List.filter_cons, hc] at ih ⊢
      omega

/-- C10: the id extraction keeps exactly the tracks whose id field is
present and non-empty, so id-less tracks contribute nothing to the
audio-features requests; whenever each batch response has at most one
entry per requested id, the final audio-features count is at most the
number of top tracks carrying an id. -/
theorem c10_tracks_without_id {F : Type}
    (tracks : List Track) (resp : List String → List (Option F))
    (access : String) (h : ∀ c, (resp c).length ≤ c.length) :
    extractTrackIds tracks
        = (tracks.filter trackIdTruthy).filterMap (fun t => t.id)
    ∧ (extractTrackIds tracks).length = (tracks.filter trackIdTruthy).length
    ∧ ∀ fs, (audioFeaturesFetch (fun c => Except.ok (resp c)) access
          (chunk100 (extractTrackIds tracks))).2 = Except.ok fs →
        fs.length ≤ (tracks.filter trackIdTruthy).length := by
  refine ⟨extractTrackIds_eq_filter tracks, extractTrackIds_length tracks, ?_⟩
  intro fs hfs
  have hok := audioFeaturesFetch_ok resp access (chunk100 (extractTrackIds tracks))
  rw [hok] at hfs
  have hfs' : fs = (((chunk100 (extractTrackIds tracks)).filter
      (fun c => !c.isEmpty)).map (fun c => (resp c).filterMap id)).flatten := by
    injection hfs.symm
  have hsub := flatten_filterMap_length_le resp h (chunk100 (extractTrackIds tracks))
  rw [chunk100_join] at hsub
  rw [hfs', ← extractTrackIds_length tracks]
  omega

/-- Witness for C10: three top tracks of which one lacks an id, responses
with one non-null feature per requested id — two features result, strictly
fewer than the three top tracks even though no response entry is null. -/
theorem c10_tracks_without_id_witness :
    ((extractTrackIds [⟨some "a"⟩, ⟨none⟩, ⟨some "b"⟩]).length
        = ([⟨some "a"⟩, ⟨none⟩, (⟨some "b"⟩ : Track)].filter trackIdTruthy).length)
    ∧ (audioFeaturesFetch
        (fun c => Except.ok (c.map (fun _ => (some 0 : Option Nat)))) "tok"
        (chunk100 (extractTrackIds [⟨some "a"⟩, ⟨none⟩, ⟨some "b"⟩]))).2
      = Except.ok [0, 0]
    ∧ 2 < ([⟨some "a"⟩, ⟨none⟩, (⟨some "b"⟩ : Track)] : List Track).length := by
  refine ⟨?_, by rfl, by decide⟩
  exact (c10_tracks_without_id [⟨some "a"⟩, ⟨none⟩, ⟨some "b"⟩]
    (fun c => c.map (fun _ => (some 0 : Option Nat))) "tok"
    (fun c => by simp)).2.1

theorem lookupField_setField (doc : BDoc) (k k' : String) (v : BVal) :
    lookupField (setField doc k v) k'
      = if k = k' then some v else lookupField doc k' := by
  induction doc with
  | nil => simp [setField, lookupField]
  | cons kv rest ih =>
    obtain ⟨k0, w⟩ := kv
    by_cases h0 : k0 = k
    · subst h0
      by_cases h1 : k0 = k'
      · subst h1
        simp [setField, lookupField]
      · simp [setField, lookupField, h1]
    · by_cases h1 : k0 = k'
      · subst h1
        have hne : k ≠ k0 := fun hh => h0 hh.symm
        simp [setField, lookupField, h0, hne]
      · simp [setField, lookupField, h0, h1, ih]

theorem setField_eq_self (doc : BDoc) (k : String) (v : BVal)
    (h : lookupField doc k = some v) : setField doc k v = doc := by
  induction doc with
  | nil => simp [lookupField] at h
  | cons kv rest ih =>
    obtain ⟨k0, w⟩ := kv
    by_cases h0 : k0 = k
    · subst h0
      have hw : w = v := by simpa [lookupField] using h
      subst hw
      simp [setField]
    · simp only [lookupField, if_neg h0] at h
      simp [setField, h0, ih h]

theorem applySet_eq_self (updates : List (String × BVal)) (doc : BDoc)
    (h : ∀ kv ∈ updates, lookupField doc kv.1 = some kv.2) :
    applySet updates doc = doc := by
  induction updates with
  | nil => rfl
  | cons kv rest ih =>
    have h1 := h kv (List.mem_cons_self _ _)
    show List.foldl _ _ _ = _
    rw [List.foldl_cons]
    have : setField doc kv.1 kv.2 = doc := setField_eq_self doc kv.1 kv.2 h1
    rw [this]
    exact ih (fun kv' hkv' => h kv' (List.mem_cons_of_mem _ hkv'))

theorem applySet_append (us vs : List (String × BVal)) (doc : BDoc) :
    applySet (us ++ vs) doc = applySet vs (applySet us doc) := by
  simp [applySet, List.foldl_append]

theorem lookupField_applySet_of_notmem (updates : List (String × BVal))
    (doc : BDoc) (k : String) (h : ∀ kv ∈ updates, kv.1 ≠ k) :
    lookupField (applySet updates doc) k = lookupField doc k := by
  induction updates generalizing doc with
  | nil => rfl
  | cons kv rest ih =>
    have hk := h kv (List.mem_cons_self _ _)
    have hrest : ∀ kv' ∈ rest, kv'.1 ≠ k :=
      fun kv' hkv' => h kv' (List.mem_cons_of_mem _ hkv')
    show lookupField (applySet rest (setField doc kv.1 kv.2)) k = lookupField doc k
    rw [ih (setField doc kv.1 kv.2) hrest, lookupField_setField]
    simp [hk]

theorem updateOneWith_found (db : UsersDb) (oidStr : String) (f : BDoc → BDoc)
    (doc : BDoc) (h : findOneById db oidStr = some doc)
    (hf : idMatches (f doc) oidStr = true) :
    (updateOneWith db oidStr f).2 = 1
    ∧ findOneById (updateOneWith db oidStr f).1 oidStr = some (f doc) := by
  induction db with
  | nil => simp [findOneById] at h
  | cons d rest ih =>
    by_cases hd : idMatches d oidStr
    · simp only [findOneById, if_pos hd, Option.some.injEq] at h
      subst h
      simp [updateOneWith, hd, findOneById, hf]
    · simp only [findOneById, if_neg hd] at h
      have hih := ih h
      simp only [updateOneWith, if_neg hd]
      refine ⟨hih.1, ?_⟩
      simp [findOneById, hd, hih.2]

/-- C8: every id-accepting repository operation first runs `_to_object_id`
and treats a malformed ObjectId string as "not found": `None` from the
accessors and token/auth operations, `False` from delete, `None` from the
snapshot insert, all without touching the stored state. -/
theorem c8_invalid_id_not_found (db : UsersDb) (snapdb : List BDoc)
    (s : String) (upd : List (String × Option BVal)) (p : TokenPayload)
    (payload : BDoc) (now : Int) (newId : String)
    (h : isValidObjectId s = false) :
    get_user_by_id db s = none
    ∧ update_user db s upd now = (db, none)
    ∧ delete_user db s = (db, false)
    ∧ save_user_spotify_tokens db s p now = (db, none)
    ∧ get_user_spotify_auth db s = none
    ∧ create_spotify_ingestion_snapshot snapdb s payload now newId
        = (snapdb, none) := by
  have ht : toObjectId s = none := by simp [toObjectId, h]
  exact ⟨by simp [get_user_by_id, ht], by simp [update_user, ht],
    by simp [delete_user, ht], by simp [save_user_spotify_tokens, ht],
    by simp [get_user_spotify_auth, ht],
    by simp [create_spotify_ingestion_snapshot, ht]⟩

/-- Witness for C8: a concrete malformed id string is rejected by every
id-accepting operation on a concrete non-empty store. -/
theorem c8_invalid_id_not_found_witness :
    isValidObjectId "not-a-valid-object-id" = false
    ∧ get_user_by_id [[("_id", BVal.oid "0123456789abcdef01234567")]]
        "not-a-valid-object-id" = none
    ∧ delete_user [[("_id", BVal.oid "0123456789abcdef01234567")]]
        "not-a-valid-object-id"
        = ([[("_id", BVal.oid "0123456789abcdef01234567")]], false) := by
  have h := c8_invalid_id_not_found
    [[("_id", BVal.oid "0123456789abcdef01234567")]] [] "not-a-valid-object-id"
    [] {} [] 0 "0123456789abcdef01234567" (by decide)
  exact ⟨by decide, h.1, h.2.2.1⟩

/-- C6: an update whose map is all null-valued (or empty once null fields
and the `_id` / `created_at` keys are stripped) returns the currently
stored record as `get_user_by_id` reports it and leaves the collection —
`updated_at` included — untouched. -/
theorem c6_noop_update (db : UsersDb) (user_id : String)
    (upd : List (String × Option BVal)) (now : Int)
    (h : survivingUpdates upd = []) :
    update_user db user_id upd now = (db, get_user_by_id db user_id) := by
  unfold update_user
  cases ht : toObjectId user_id with
  | none => simp [get_user_by_id, ht]
  | some oidStr => simp [h]

/-- Witness for C6: a concrete stored user and an update carrying only a
null field and a `created_at` overwrite attempt; nothing survives, the
stored record is returned and the collection is unchanged. -/
theorem c6_noop_update_witness :
    survivingUpdates [("username", (none : Option BVal)),
        ("created_at", some (BVal.dt ⟨5, some 0⟩))] = []
    ∧ update_user
        [[("_id", BVal.oid "0123456789abcdef01234567"),
          ("username", BVal.str "u"), ("hashed_password", BVal.str "h"),
          ("updated_at", BVal.dt ⟨0, some 0⟩)]]
        "0123456789abcdef01234567"
        [("username", (none : Option BVal)),
          ("created_at", some (BVal.dt ⟨5, some 0⟩))] 7
      = ([[("_id", BVal.oid "0123456789abcdef01234567"),
          ("username", BVal.str "u"), ("hashed_password", BVal.str "h"),
          ("updated_at", BVal.dt ⟨0, some 0⟩)]],
         get_user_by_id
          [[("_id", BVal.oid "0123456789abcdef01234567"),
            ("username", BVal.str "u"), ("hashed_password", BVal.str "h"),
            ("updated_at", BVal.dt ⟨0, some 0⟩)]]
          "0123456789abcdef01234567")
    ∧ get_user_by_id
        [[("_id", BVal.oid "0123456789abcdef01234567"),
          ("username", BVal.str "u"), ("hashed_password", BVal.str "h"),
          ("updated_at", BVal.dt ⟨0, some 0⟩)]]
        "0123456789abcdef01234567"
      = some [("_id", BVal.str "0123456789abcdef01234567"),
          ("username", BVal.str "u"), ("updated_at", BVal.dt ⟨0, some 0⟩)] := by
  refine ⟨by decide, ?_, by decide⟩
  exact c6_noop_update _ "0123456789abcdef01234567" _ 7 (by decide)

theorem survivingUpdates_no_id (upd : List (String × Option BVal)) :
    ∀ kv ∈ survivingUpdates upd, kv.1 ≠ "_id" := by
  intro kv hkv
  unfold survivingUpdates at hkv
  rw [List.mem_filter] at hkv
  have h2 := hkv.2
  simp only [Bool.and_eq_true, Bool.not_eq_true', beq_eq_false_iff_ne] at h2
  exact h2.1

theorem idMatches_setField (doc : BDoc) (k : String) (v : BVal)
    (oidStr : String) (hk : k ≠ "_id") :
    idMatches (setField doc k v) oidStr = idMatches doc oidStr := by
  unfold idMatches
  rw [lookupField_setField]
  simp [hk]

/-- C3: persisting a token payload rewrites the stored auth sub-record to
the null-filtered merge `spotifyAuthAfterSave`: the stored refresh token
is untouched when the payload carries no (or a null/empty) refresh token
and overwritten by a non-empty one, and no stored field is ever
overwritten with null — a field of the merged record is `none` only if it
was already `none` before. -/
theorem c3_refresh_token_preserved (db : UsersDb) (user_id : String)
    (p : TokenPayload) (now : Int) (oidStr : String) (doc : BDoc)
    (a : SpotifyAuth)
    (h0 : toObjectId user_id = some oidStr)
    (h1 : findOneById db oidStr = some doc)
    (h2 : lookupField doc "spotify" = some (BVal.auth a)) :
    findOneById (save_user_spotify_tokens db user_id p now).1 oidStr
        = some (setField (setField doc "spotify"
            (BVal.auth (spotifyAuthAfterSave a p now)))
          "updated_at" (BVal.dt ⟨now, some 0⟩))
    ∧ ((p.refresh_token = none ∨ p.refresh_token = some "") →
        (spotifyAuthAfterSave a p now).refresh_token = a.refresh_token)
    ∧ (∀ rt, p.refresh_token = some rt → rt ≠ "" →
        (spotifyAuthAfterSave a p now).refresh_token = some rt)
    ∧ ((spotifyAuthAfterSave a p now).access_token = none →
        a.access_token = none)
    ∧ ((spotifyAuthAfterSave a p now).token_type = none → a.token_type = none)
    ∧ ((spotifyAuthAfterSave a p now).scope = none → a.scope = none)
    ∧ ((spotifyAuthAfterSave a p now).expires_at = none → a.expires_at = none)
    ∧ ((spotifyAuthAfterSave a p now).refresh_token = none →
        a.refresh_token = none)
    ∧ (spotifyAuthAfterSave a p now).expires_in ≠ none
    ∧ (spotifyAuthAfterSave a p now).updated_at ≠ none := by
  refine ⟨?_, ?_, ?_, ?_, ?_, ?_, ?_, ?_, ?_, ?_⟩
  · have hmatch : idMatches doc oidStr = true := by
      induction db with
      | nil => simp [findOneById] at h1
      | cons d rest ih =>
        by_cases hd : idMatches d oidStr
        · simp only [findOneById, if_pos hd, Option.some.injEq] at h1
          subst h1; exact hd
        · simp only [findOneById, if_neg hd] at h1
          exact ih h1
    have hpres : idMatches (applySpotifySave p now doc) oidStr = true := by
      unfold applySpotifySave
      rw [idMatches_setField _ _ _ _ (by decide),
        idMatches_setField _ _ _ _ (by decide)]
      exact hmatch
    have hupd := updateOneWith_found db oidStr (applySpotifySave p now) doc h1 hpres
    have hsave1 : (save_user_spotify_tokens db user_id p now).1
        = (updateOneWith db oidStr (applySpotifySave p now)).1 := by
      unfold save_user_spotify_tokens
      rw [h0]
      by_cases hz : (updateOneWith db oidStr (applySpotifySave p now)).2 == 0
      · simp [hz]
      · simp [hz]
    rw [hsave1, hupd.2]
    unfold applySpotifySave
    rw [show getStoredAuth doc = a by simp [getStoredAuth, h2]]
  · intro hrt
    rcases hrt with hrt | hrt <;>
      simp [spotifyAuthAfterSave, optSet, truthyStr, hrt]
  · intro rt hrt hne
    simp [spotifyAuthAfterSave, optSet, truthyStr, hrt, hne]
  · cases hpa : p.access_token <;>
      simp [spotifyAuthAfterSave, optSet, hpa]
  · cases hpt : p.token_type <;>
      simp [spotifyAuthAfterSave, optSet, hpt]
  · cases hps : p.scope <;>
      simp [spotifyAuthAfterSave, optSet, hps]
  · by_cases he : 0 < p.expires_in.getD 0 <;>
      simp [spotifyAuthAfterSave, optSet, he]
  · cases hpr : p.refresh_token with
    | none => simp [spotifyAuthAfterSave, optSet, truthyStr, hpr]
    | some rt =>
      by_cases hne : rt = "" <;>
        simp [spotifyAuthAfterSave, optSet, truthyStr, hpr, hne]
  · simp [spotifyAuthAfterSave]
  · simp [spotifyAuthAfterSave]

/-- Witness for C3: a stored auth with refresh token "old", persisted
payloads without and with a fresh refresh token, on a concrete user
document. -/
theorem c3_refresh_token_preserved_witness :
    toObjectId "0123456789abcdef01234567" = some "0123456789abcdef01234567"
    ∧ (spotifyAuthAfterSave
        { refresh_token := some "old", access_token := some "tok0" }
        { access_token := some "tok1", expires_in := some 3600 } 50).refresh_token
      = some "old"
    ∧ (spotifyAuthAfterSave
        { refresh_token := some "old", access_token := some "tok0" }
        { access_token := some "tok1", refresh_token := some "new" } 50).refresh_token
      = some "new"
    ∧ findOneById (save_user_spotify_tokens
        [[("_id", BVal.oid "0123456789abcdef01234567"),
          ("spotify", BVal.auth { refresh_token := some "old", access_token := some "tok0" })]]
        "0123456789abcdef01234567"
        { access_token := some "tok1", expires_in := some 3600 } 50).1
        "0123456789abcdef01234567"
      = some (setField (setField
          [("_id", BVal.oid "0123456789abcdef01234567"),
            ("spotify", BVal.auth { refresh_token := some "old", access_token := some "tok0" })]
          "spotify" (BVal.auth (spotifyAuthAfterSave
            { refresh_token := some "old", access_token := some "tok0" }
            { access_token := some "tok1", expires_in := some 3600 } 50)))
          "updated_at" (BVal.dt ⟨50, some 0⟩)) := by
  have h := c3_refresh_token_preserved
    [[("_id", BVal.oid "0123456789abcdef01234567"),
      ("spotify", BVal.auth { refresh_token := some "old", access_token := some "tok0" })]]
    "0123456789abcdef01234567"
    { access_token := some "tok1", expires_in := some 3600 } 50
    "0123456789abcdef01234567"
    [("_id", BVal.oid "0123456789abcdef01234567"),
      ("spotify", BVal.auth { refresh_token := some "old", access_token := some "tok0" })]
    { refresh_token := some "old", access_token := some "tok0" }
    (by decide) (by decide) (by decide)
  exact ⟨by decide, h.2.1 (Or.inl rfl), by decide, h.1⟩

/-- Counterexample to C4 as stated: persisting a payload whose
`expires_in` is 0 onto a user whose auth already holds an expiry leaves
the old expiry in place — the sub-record does NOT end up holding no
expiry value, because the `None`-valued `spotify.expires_at` entry is
dropped from the update map before the merge. -/
theorem c4_counterexample :
    (({ expires_in := some 0 : TokenPayload }.expires_in.getD 0 ≤ 0) = True)
    ∧ (getStoredAuth ((save_user_spotify_tokens
        [[("_id", BVal.oid "0123456789abcdef01234567"),
          ("spotify", BVal.auth { expires_at := some ⟨100, some 0⟩ })]]
        "0123456789abcdef01234567" { expires_in := some 0 } 200).1.headD [])).expires_at
      = some ⟨100, some 0⟩
    ∧ (getStoredAuth ((save_user_spotify_tokens
        [[("_id", BVal.oid "0123456789abcdef01234567"),
          ("spotify", BVal.auth { expires_at := some ⟨100, some 0⟩ })]]
        "0123456789abcdef01234567" { expires_in := some 0 } 200).1.headD [])).expires_at
      ≠ none := by
  refine ⟨by simp, by decide, by decide⟩

/-- C4 as amended: persisting stores `spotify.expires_at = now +
expires_in` when `expires_in > 0`; when `expires_in` is absent, zero or
negative it does not write the expiry at all, leaving any previously
stored expiry value unchanged (rather than unsetting it). -/
theorem c4_expiry_amended (db : UsersDb) (user_id : String) (p : TokenPayload)
    (now : Int) (oidStr : String) (doc : BDoc) (a : SpotifyAuth)
    (h0 : toObjectId user_id = some oidStr)
    (h1 : findOneById db oidStr = some doc)
    (h2 : lookupField doc "spotify" = some (BVal.auth a)) :
    (getStoredAuth ((findOneById
        (save_user_spotify_tokens db user_id p now).1 oidStr).getD [])).expires_at
      = if 0 < p.expires_in.getD 0
        then some ⟨now + p.expires_in.getD 0, some 0⟩
        else a.expires_at := by
  have h := (c3_refresh_token_preserved db user_id p now oidStr doc a h0 h1 h2).1
  rw [h]
  have hlook : lookupField (setField (setField doc "spotify"
      (BVal.auth (spotifyAuthAfterSave a p now)))
      "updated_at" (BVal.dt ⟨now, some 0⟩)) "spotify"
      = some (BVal.auth (spotifyAuthAfterSave a p now)) := by
    rw [lookupField_setField]
    simp only [if_neg (by decide : ¬("updated_at" = "spotify"))]
    rw [lookupField_setField]
    simp
  simp only [Option.getD_some, getStoredAuth, hlook]
  by_cases he : 0 < p.expires_in.getD 0 <;>
    simp [spotifyAuthAfterSave, optSet, he]

/-- Witness for C4 (amended): positive `expires_in` sets `now +
expires_in`, on the same concrete store as the counterexample. -/
theorem c4_expiry_amended_witness :
    (getStoredAuth ((findOneById (save_user_spotify_tokens
        [[("_id", BVal.oid "0123456789abcdef01234567"),
          ("spotify", BVal.auth { expires_at := some ⟨100, some 0⟩ })]]
        "0123456789abcdef01234567" { expires_in := some 3600 } 200).1
        "0123456789abcdef01234567").getD [])).expires_at
      = some ⟨3800, some 0⟩ := by
  have h := c4_expiry_amended
    [[("_id", BVal.oid "0123456789abcdef01234567"),
      ("spotify", BVal.auth { expires_at := some ⟨100, some 0⟩ })]]
    "0123456789abcdef01234567" { expires_in := some 3600 } 200
    "0123456789abcdef01234567"
    [("_id", BVal.oid "0123456789abcdef01234567"),
      ("spotify", BVal.auth { expires_at := some ⟨100, some 0⟩ })]
    { expires_at := some ⟨100, some 0⟩ }
    (by decide) (by decide) (by decide)
  simpa using h

/-- Counterexample to C7 as stated: an update whose only surviving field
(`username := "u"`) equals the currently stored value still bumps
`updated_at` from instant 0 to the current instant 5 — `update_user` only
checks that the surviving map is non-empty, never whether the values
actually change. -/
theorem c7_counterexample :
    survivingUpdates [("username", some (BVal.str "u"))]
      = [("username", BVal.str "u")]
    ∧ lookupField [("_id", BVal.oid "0123456789abcdef01234567"),
        ("username", BVal.str "u"), ("updated_at", BVal.dt ⟨0, some 0⟩)]
        "username" = some (BVal.str "u")
    ∧ lookupField ((update_user
        [[("_id", BVal.oid "0123456789abcdef01234567"),
          ("username", BVal.str "u"), ("updated_at", BVal.dt ⟨0, some 0⟩)]]
        "0123456789abcdef01234567"
        [("username", some (BVal.str "u"))] 5).1.headD []) "updated_at"
      = some (BVal.dt ⟨5, some 0⟩)
    ∧ some (BVal.dt ⟨5, some 0⟩) ≠ some (BVal.dt ⟨0, some 0⟩) := by
  refine ⟨by decide, by decide, by decide, by decide⟩

/-- C7 as amended: whenever any field survives the null/`_id`/`created_at`
filtering, `update_user` stamps `updated_at := now` on the stored
document; when every surviving field equals its currently stored value,
that stamp is the only change to the document. -/
theorem c7_updated_at_stamped (db : UsersDb) (user_id : String)
    (upd : List (String × Option BVal)) (now : Int) (oidStr : String)
    (doc : BDoc)
    (h0 : toObjectId user_id = some oidStr)
    (h1 : findOneById db oidStr = some doc)
    (h2 : survivingUpdates upd ≠ [])
    (h3 : ∀ kv ∈ survivingUpdates upd, lookupField doc kv.1 = some kv.2) :
    findOneById (update_user db user_id upd now).1 oidStr
      = some (setField doc "updated_at" (BVal.dt ⟨now, some 0⟩)) := by
  have hmatch : idMatches doc oidStr = true := by
    induction db with
    | nil => simp [findOneById] at h1
    | cons d rest ih =>
      by_cases hd : idMatches d oidStr
      · simp only [findOneById, if_pos hd, Option.some.injEq] at h1
        subst h1; exact hd
      · simp only [findOneById, if_neg hd] at h1
        exact ih h1
  have happly : applySet (survivingUpdates upd
      ++ [("updated_at", BVal.dt ⟨now, some 0⟩)]) doc
      = setField doc "updated_at" (BVal.dt ⟨now, some 0⟩) := by
    rw [applySet_append, applySet_eq_self _ _ h3]
    rfl
  have hpres : idMatches (applySet (survivingUpdates upd
      ++ [("updated_at", BVal.dt ⟨now, some 0⟩)]) doc) oidStr = true := by
    rw [happly, idMatches_setField _ _ _ _ (by decide)]
    exact hmatch
  have hupd := updateOneWith_found db oidStr
    (applySet (survivingUpdates upd ++ [("updated_at", BVal.dt ⟨now, some 0⟩)]))
    doc h1 hpres
  have hne : (survivingUpdates upd).isEmpty = false := by
    cases hsu : survivingUpdates upd with
    | nil => exact absurd hsu h2
    | cons kv rest => rfl
  unfold update_user
  rw [h0]
  simp only [hne, Bool.false_eq_true, if_false]
  rw [hupd.2, happly]

/-- Witness for C7 (amended): the counterexample's store, identical
surviving value, result document changed only at `updated_at`. -/
theorem c7_updated_at_stamped_witness :
    survivingUpdates [("username", some (BVal.str "u"))] ≠ []
    ∧ findOneById (update_user
        [[("_id", BVal.oid "0123456789abcdef01234567"),
          ("username", BVal.str "u"), ("updated_at", BVal.dt ⟨0, some 0⟩)]]
        "0123456789abcdef01234567"
        [("username", some (BVal.str "u"))] 5).1
        "0123456789abcdef01234567"
      = some (setField
          [("_id", BVal.oid "0123456789abcdef01234567"),
            ("username", BVal.str "u"), ("updated_at", BVal.dt ⟨0, some 0⟩)]
          "updated_at" (BVal.dt ⟨5, some 0⟩)) := by
  refine ⟨by decide, ?_⟩
  exact c7_updated_at_stamped
    [[("_id", BVal.oid "0123456789abcdef01234567"),
      ("username", BVal.str "u"), ("updated_at", BVal.dt ⟨0, some 0⟩)]]
    "0123456789abcdef01234567" [("username", some (BVal.str "u"))] 5
    "0123456789abcdef01234567"
    [("_id", BVal.oid "0123456789abcdef01234567"),
      ("username", BVal.str "u"), ("updated_at", BVal.dt ⟨0, some 0⟩)]
    (by decide) (by decide) (by decide) (by decide)

theorem lookupField_projection_excluded (doc : BDoc) (k : String)
    (hk : (!(k == "hashed_password") && !(k == "spotify")) = false) :
    lookupField (applyPublicProjection doc) k = none := by
  induction doc with
  | nil => rfl
  | cons kv rest ih =>
    obtain ⟨k0, w⟩ := kv
    show lookupField (List.filter _ ((k0, w) :: rest)) k = none
    rw [List.filter_cons]
    by_cases hp : (!(k0 == "hashed_password") && !(k0 == "spotify")) = true
    · rw [if_pos hp]
      have hne : k0 ≠ k := by
        intro he
        subst he
        rw [hp] at hk
        exact absurd hk (by simp)
      show (if k0 = k then some w else lookupField (List.filter _ rest) k) = none
      rw [if_neg hne]
      exact ih
    · rw [if_neg hp]
      exact ih

theorem lookupField_serializeUserDoc (doc : BDoc) (k : String)
    (hk : k ≠ "_id") :
    lookupField (serializeUserDoc doc) k = lookupField doc k := by
  unfold serializeUserDoc
  cases h : lookupField doc "_id" with
  | none => rfl
  | some v =>
    cases v with
    | str s => rfl
    | intv n => rfl
    | dt d => rfl
    | auth a => rfl
    | oid s =>
      rw [lookupField_setField, if_neg (fun he : "_id" = k => hk he.symm)]

theorem publicResult_clean (x : BDoc) (d : BDoc)
    (h : serializeUser (some (applyPublicProjection x)) = some d) :
    lookupField d "hashed_password" = none ∧ lookupField d "spotify" = none := by
  cases hp : applyPublicProjection x with
  | nil =>
    rw [hp] at h
    exact absurd h (by simp [serializeUser])
  | cons kv rest =>
    rw [hp] at h
    have hd : d = serializeUserDoc (kv :: rest) := by
      have hs : serializeUser (some (kv :: rest))
          = some (serializeUserDoc (kv :: rest)) := by
        cases kv; rfl
      rw [hs] at h
      exact (Option.some.injEq _ _ ▸ h).symm
    subst hd
    rw [lookupField_serializeUserDoc _ _ (by decide),
      lookupField_serializeUserDoc _ _ (by decide), ← hp]
    exact ⟨lookupField_projection_excluded x _ (by decide),
      lookupField_projection_excluded x _ (by decide)⟩

theorem serializeUser_map_proj_clean (o : Option BDoc) (d : BDoc)
    (h : serializeUser (o.map applyPublicProjection) = some d) :
    lookupField d "hashed_password" = none ∧ lookupField d "spotify" = none := by
  cases o with
  | none => exact absurd h (by simp [serializeUser])
  | some x => exact publicResult_clean x d (by simpa using h)

/-- Counterexample to C9 as stated: `get_user_by_username` is a read path,
and called with `include_password_hash=True` it returns the stored record
with the `hashed_password` field present. -/
theorem c9_counterexample :
    (get_user_by_username
        [[("_id", BVal.oid "0123456789abcdef01234567"),
          ("username", BVal.str "u"), ("hashed_password", BVal.str "secret")]]
        "u" true).map (fun d => lookupField d "hashed_password")
      = some (some (BVal.str "secret")) := by
  decide

/-- C9 as amended: with `include_password_hash` left at its default
`False` — the only way any route in this repository calls the
by-username/by-email accessors — every listed read path returns records
with the `hashed_password` field excluded, and the Spotify auth sub-record
excluded as well; passing `include_password_hash=True` explicitly is the
sole way to obtain the hash. -/
theorem c9_no_password_hash_amended (db : UsersDb) (user_doc : BDoc)
    (uid uname email : String) (upd : List (String × Option BVal))
    (limit : Nat) (now : Int) (newId : String) :
    (∀ d, (create_user db user_doc now newId).2 = some d →
        lookupField d "hashed_password" = none ∧ lookupField d "spotify" = none)
    ∧ (∀ d ∈ list_users db limit,
        lookupField d "hashed_password" = none ∧ lookupField d "spotify" = none)
    ∧ (∀ d, get_user_by_id db uid = some d →
        lookupField d "hashed_password" = none ∧ lookupField d "spotify" = none)
    ∧ (∀ d, (update_user db uid upd now).2 = some d →
        lookupField d "hashed_password" = none ∧ lookupField d "spotify" = none)
    ∧ (∀ d, get_user_by_username db uname false = some d →
        lookupField d "hashed_password" = none ∧ lookupField d "spotify" = none)
    ∧ (∀ d, get_user_by_email db email false = some d →
        lookupField d "hashed_password" = none ∧ lookupField d "spotify" = none) := by
  have hbyid : ∀ (db2 : UsersDb) (uid2 : String) (d : BDoc),
      get_user_by_id db2 uid2 = some d →
      lookupField d "hashed_password" = none ∧ lookupField d "spotify" = none := by
    intro db2 uid2 d h
    unfold get_user_by_id at h
    cases ht : toObjectId uid2 with
    | none =>
      rw [ht] at h
      exact absurd h (by simp)
    | some oidStr =>
      rw [ht] at h
      exact serializeUser_map_proj_clean (findOneById db2 oidStr) d h
  refine ⟨?_, ?_, hbyid db uid, ?_, ?_, ?_⟩
  · intro d h
    exact serializeUser_map_proj_clean _ d h
  · intro d hd
    unfold list_users at hd
    rw [List.mem_filterMap] at hd
    obtain ⟨x, _, hx⟩ := hd
    exact publicResult_clean x d hx
  · intro d h
    unfold update_user at h
    cases ht : toObjectId uid with
    | none =>
      rw [ht] at h
      exact absurd h (by simp)
    | some oidStr =>
      rw [ht] at h
      have h2 : (if (survivingUpdates upd).isEmpty = true
          then (db, get_user_by_id db uid)
          else ((updateOneWith db oidStr (applySet (survivingUpdates upd
              ++ [("updated_at", BVal.dt ⟨now, some 0⟩)]))).1,
            serializeUser ((findOneById (updateOneWith db oidStr
              (applySet (survivingUpdates upd
                ++ [("updated_at", BVal.dt ⟨now, some 0⟩)]))).1 oidStr).map
              applyPublicProjection))).2 = some d := h
      by_cases he : (survivingUpdates upd).isEmpty = true
      · rw [if_pos he] at h2
        exact hbyid db uid d h2
      · rw [if_neg he] at h2
        exact serializeUser_map_proj_clean _ d h2
  · intro d h
    unfold get_user_by_username at h
    cases hf : findOneByField db "username" (BVal.str uname) with
    | none =>
      rw [hf] at h
      exact absurd h (by simp [serializeUser])
    | some x =>
      rw [hf] at h
      exact publicResult_clean x d (by simpa using h)
  · intro d h
    unfold get_user_by_email at h
    cases hf : findOneByField db "email" (BVal.str email) with
    | none =>
      rw [hf] at h
      exact absurd h (by simp [serializeUser])
    | some x =>
      rw [hf] at h
      exact publicResult_clean x d (by simpa using h)

/-- Witness for C9 (amended): concrete store whose one user carries both a
password hash and a Spotify sub-record; the projected read paths return
the record without either field. -/
theorem c9_no_password_hash_amended_witness :
    get_user_by_id
        [[("_id", BVal.oid "0123456789abcdef01234567"),
          ("username", BVal.str "u"), ("hashed_password", BVal.str "secret"),
          ("spotify", BVal.auth { access_token := some "tok" })]]
        "0123456789abcdef01234567" ≠ none
    ∧ lookupField ((get_user_by_id
        [[("_id", BVal.oid "0123456789abcdef01234567"),
          ("username", BVal.str "u"), ("hashed_password", BVal.str "secret"),
          ("spotify", BVal.auth { access_token := some "tok" })]]
        "0123456789abcdef01234567").getD []) "hashed_password" = none
    ∧ lookupField ((get_user_by_id
        [[("_id", BVal.oid "0123456789abcdef01234567"),
          ("username", BVal.str "u"), ("hashed_password", BVal.str "secret"),
          ("spotify", BVal.auth { access_token := some "tok" })]]
        "0123456789abcdef01234567").getD []) "spotify" = none := by
  have h := (c9_no_password_hash_amended
    [[("_id", BVal.oid "0123456789abcdef01234567"),
      ("username", BVal.str "u"), ("hashed_password", BVal.str "secret"),
      ("spotify", BVal.auth { access_token := some "tok" })]]
    [] "0123456789abcdef01234567" "u" "e" [] 10 0
    "0123456789abcdef01234568").2.2.1
  have hd := h ((get_user_by_id
    [[("_id", BVal.oid "0123456789abcdef01234567"),
      ("username", BVal.str "u"), ("hashed_password", BVal.str "secret"),
      ("spotify", BVal.auth { access_token := some "tok" })]]
    "0123456789abcdef01234567").getD []) (by decide)
  exact ⟨by decide, hd.1, hd.2⟩

theorem audioFeaturesFetch_calls_shape {F : Type}
    (getAF : List String → Except Int (List (Option F))) (access : String)
    (cs : List (List String)) :
    ∀ c ∈ (audioFeaturesFetch getAF access cs).1,
      ∃ ids, c = SpotifyCall.getAudioFeatures access ids := by
  induction cs with
  | nil => intro c hc; exact absurd hc (by simp [audioFeaturesFetch])
  | cons hd rest ih =>
    intro c hc
    by_cases hhd : hd.isEmpty
    · rw [show audioFeaturesFetch getAF access (hd :: rest)
          = audioFeaturesFetch getAF access rest by
        simp [audioFeaturesFetch, hhd]] at hc
      exact ih c hc
    · simp only [audioFeaturesFetch, hhd, Bool.false_eq_true, if_false] at hc
      cases hg : getAF hd with
      | error st =>
        rw [hg] at hc
        simp only [List.mem_singleton] at hc
        exact ⟨hd, hc⟩
      | ok feats =>
        rw [hg] at hc
        simp only [List.mem_cons] at hc
        rcases hc with hc | hc
        · exact ⟨hd, hc⟩
        · exact ih c hc

theorem ingestAfterToken_calls {F : Type} (env : IngestEnv F)
    (snapdb : List BDoc) (user_id : String) (now : Int) (newSnapId : String)
    (tok : String) :
    ∀ c ∈ (ingestAfterToken env snapdb user_id now newSnapId tok).1,
      c.isRefresh = false ∧ c.isPersist = false
      ∧ (c.token = some tok ∨ c = .createSnapshot) := by
  intro c hc
  unfold ingestAfterToken at hc
  split at hc
  · simp only [List.mem_singleton] at hc
    subst hc
    exact ⟨rfl, rfl, Or.inl rfl⟩
  · rename_i tracks htracks
    split at hc
    · simp only [List.mem_cons, List.not_mem_nil, or_false] at hc
      rcases hc with hc | hc <;> (subst hc; exact ⟨rfl, rfl, Or.inl rfl⟩)
    · split at hc
      · simp only [List.mem_cons, List.not_mem_nil, or_false] at hc
        rcases hc with hc | hc | hc <;> (subst hc; exact ⟨rfl, rfl, Or.inl rfl⟩)
      · split at hc
        · rename_i afCalls st haf
          simp only [List.mem_append, List.mem_cons, List.not_mem_nil,
            or_false] at hc
          rcases hc with (hc | hc | hc) | hc
          · subst hc; exact ⟨rfl, rfl, Or.inl rfl⟩
          · subst hc; exact ⟨rfl, rfl, Or.inl rfl⟩
          · subst hc; exact ⟨rfl, rfl, Or.inl rfl⟩
          · obtain ⟨ids, hi⟩ := audioFeaturesFetch_calls_shape
              (env.audioFeatures tok) tok (chunk100 (extractTrackIds tracks)) c
              (by rw [haf]; exact hc)
            subst hi; exact ⟨rfl, rfl, Or.inl rfl⟩
        · rename_i afCalls feats haf
          split at hc
          · rename_i snapdb2 hsnap
            simp only [List.append_assoc, List.mem_append, List.mem_cons,
              List.not_mem_nil, or_false] at hc
            rcases hc with (hc | hc | hc) | hc | hc
            · subst hc; exact ⟨rfl, rfl, Or.inl rfl⟩
            · subst hc; exact ⟨rfl, rfl, Or.inl rfl⟩
            · subst hc; exact ⟨rfl, rfl, Or.inl rfl⟩
            · obtain ⟨ids, hi⟩ := audioFeaturesFetch_calls_shape
                (env.audioFeatures tok) tok (chunk100 (extractTrackIds tracks)) c
                (by rw [haf]; exact hc)
              subst hi; exact ⟨rfl, rfl, Or.inl rfl⟩
            · subst hc; exact ⟨rfl, rfl, Or.inr rfl⟩
          · rename_i snapdb2 sid hsnap
            simp only [List.append_assoc, List.mem_append, List.mem_cons,
              List.not_mem_nil, or_false] at hc
            rcases hc with (hc | hc | hc) | hc | hc
            · subst hc; exact ⟨rfl, rfl, Or.inl rfl⟩
            · subst hc; exact ⟨rfl, rfl, Or.inl rfl⟩
            · subst hc; exact ⟨rfl, rfl, Or.inl rfl⟩
            · obtain ⟨ids, hi⟩ := audioFeaturesFetch_calls_shape
                (env.audioFeatures tok) tok (chunk100 (extractTrackIds tracks)) c
                (by rw [haf]; exact hc)
              subst hi; exact ⟨rfl, rfl, Or.inl rfl⟩
            · subst hc; exact ⟨rfl, rfl, Or.inr rfl⟩

/-- C5: when the stored auth is expired and holds a truthy refresh token,
and the refresh succeeds with a payload carrying a non-empty access
token, the run opens with exactly the refresh call followed by the
persistence of the refreshed payload; every later call is neither a
refresh nor a persist, and every later upstream call carries the
refreshed access token (the snapshot insert being the only tokenless
step); the users collection ends in exactly the state
`save_user_spotify_tokens` produces for the refreshed payload, written
before any fetch is issued. -/
theorem c5_refresh_before_fetches {F : Type} (env : IngestEnv F)
    (db : UsersDb) (snapdb : List BDoc) (user_id : String) (now : Int)
    (newSnapId : String) (auth : SpotifyAuth) (rt : String) (p : TokenPayload)
    (tok : String)
    (hauth : get_user_spotify_auth db user_id = some auth)
    (hexp : is_expired (expiryValueOf auth.expires_at) now = true)
    (hrt : auth.refresh_token = some rt) (hrtne : rt ≠ "")
    (href : env.refresh rt = Except.ok p)
    (htok : p.access_token = some tok) (htokne : tok ≠ "") :
    ∃ rest,
      (spotify_ingest env db snapdb user_id now newSnapId).calls
          = SpotifyCall.refreshToken rt :: SpotifyCall.persistTokens p :: rest
      ∧ (∀ c ∈ rest, c.isRefresh = false ∧ c.isPersist = false
          ∧ (c.token = some tok ∨ c = SpotifyCall.createSnapshot))
      ∧ (spotify_ingest env db snapdb user_id now newSnapId).users
          = (save_user_spotify_tokens db user_id p now).1 := by
  have hmissing : (!truthyStr auth.access_token && !truthyStr (some rt))
      = false := by
    simp [truthyStr, hrtne]
  refine ⟨(ingestAfterToken env snapdb user_id now newSnapId tok).1, ?_, ?_, ?_⟩
  · unfold spotify_ingest
    rw [hauth]
    simp only [hrt, hmissing, Bool.false_eq_true, if_false, hexp, if_true,
      href, htok]
    rw [if_neg hrtne, if_neg htokne]
    rfl
  · exact ingestAfterToken_calls env snapdb user_id now newSnapId tok
  · unfold spotify_ingest
    rw [hauth]
    simp only [hrt, hmissing, Bool.false_eq_true, if_false, hexp, if_true,
      href, htok]
    rw [if_neg hrtne, if_neg htokne]

/-- Witness for C5: on the concrete expired-token store, the run opens
with the refresh and the persist, all later calls carry the refreshed
token, the users collection ends as `save_user_spotify_tokens` leaves it,
and the full trace is refresh, persist, the three fetches, one
audio-features batch, snapshot insert. -/
theorem c5_refresh_before_fetches_witness :
    get_user_spotify_auth c5Db "0123456789abcdef01234567"
      = some { access_token := some "oldtok", refresh_token := some "rt", expires_at := some ⟨10, some 0⟩ }
    ∧ is_expired (expiryValueOf (some ⟨10, some 0⟩)) 100 = true
    ∧ (spotify_ingest c5Env c5Db [] "0123456789abcdef01234567" 100
        "feedfacefeedfacefeedface").users
      = (save_user_spotify_tokens c5Db "0123456789abcdef01234567"
          { access_token := some "newtok", refresh_token := some "rt2", expires_in := some 3600 } 100).1
    ∧ (spotify_ingest c5Env c5Db [] "0123456789abcdef01234567" 100
        "feedfacefeedfacefeedface").calls
      = [SpotifyCall.refreshToken "rt",
          SpotifyCall.persistTokens { access_token := some "newtok", refresh_token := some "rt2", expires_in := some 3600 },
          SpotifyCall.getTopTracks "newtok", SpotifyCall.getTopArtists "newtok",
          SpotifyCall.getRecentlyPlayed "newtok",
          SpotifyCall.getAudioFeatures "newtok" ["t1"],
          SpotifyCall.createSnapshot] := by
  obtain ⟨rest, hcalls, hrest, husers⟩ :=
    c5_refresh_before_fetches c5Env c5Db [] "0123456789abcdef01234567" 100
      "feedfacefeedfacefeedface"
      { access_token := some "oldtok", refresh_token := some "rt", expires_at := some ⟨10, some 0⟩ }
      "rt"
      { access_token := some "newtok", refresh_token := some "rt2", expires_in := some 3600 }
      "newtok" (by decide) (by decide) rfl (by decide) rfl rfl (by decide)
  exact ⟨by decide, by decide, husers, by decide⟩

end MusicAgent
